import Mathlib

/-!
Verification of the request-lifecycle core of the threads-cli client library.

The repository ships extensive unit tests for the core (identifier types,
error taxonomy, validator, container builder, credentials, OAuth URL
construction) together with a development plan whose code blocks contain the
carousel command and its container-polling loop.  The library functions
themselves are not present in the snapshot, so each one is modelled here,
faithful to the specification's description of it and cross-checked against
the expectations the unit tests encode.  Machine integers are modelled as
`Int`/`Nat`, time as integer timestamps, fallible operations as `Option`/
`Except`, and the HTTP transport as an explicit function argument so that the
set of issued requests is visible in the result.
-/

namespace Threads

/-! ### Identifier types

Modelled from the spec: "Identifier (PostID/UserID/ContainerID/LocationID):
wraps a string; `Valid()` is true iff non-empty after trimming; equality is
string equality. Created via a conversion function from raw strings."
The implementation file is absent; the behaviour is pinned by
`TestPostIDTypes`, `TestLocationID_Valid` and `TestLocationID_String`. -/

/-- Go's `strings.TrimSpace`: drop leading and trailing whitespace. -/
def trimSpace (s : String) : String :=
  ⟨((s.data.dropWhile Char.isWhitespace).reverse.dropWhile Char.isWhitespace).reverse⟩

structure PostID where
  raw : String
deriving DecidableEq, Repr

structure UserID where
  raw : String
deriving DecidableEq, Repr

structure ContainerID where
  raw : String
deriving DecidableEq, Repr

structure LocationID where
  raw : String
deriving DecidableEq, Repr

def ConvertToPostID (s : String) : PostID := ⟨s⟩

def ConvertToUserID (s : String) : UserID := ⟨s⟩

def ConvertToContainerID (s : String) : ContainerID := ⟨s⟩

def ConvertToLocationID (s : String) : LocationID := ⟨s⟩

def PostID.Valid (id : PostID) : Bool := trimSpace id.raw ≠ ""

def UserID.Valid (id : UserID) : Bool := trimSpace id.raw ≠ ""

def ContainerID.Valid (id : ContainerID) : Bool := trimSpace id.raw ≠ ""

def LocationID.Valid (id : LocationID) : Bool := trimSpace id.raw ≠ ""

/-- `String()` accessor of `PostID` (Go's `fmt.Stringer`). -/
def PostID.str (id : PostID) : String := id.raw

def UserID.str (id : UserID) : String := id.raw

def ContainerID.str (id : ContainerID) : String := id.raw

def LocationID.str (id : LocationID) : String := id.raw

/-! ### Error taxonomy

Modelled from the spec: each kind "carries a numeric code, human message,
machine-readable type tag, free-form details string, and a kind-specific
payload (validation: offending field name; rate limit: retry-after duration;
network: temporary/permanent flag; API: request id)".  Shapes and constructor
behaviour are pinned by `TestNewValidationError`, `TestNewNetworkError`,
`TestNewAPIError`, `TestNewRateLimitError` and the `TestIsXError` suite.
Durations are modelled in nanoseconds (`Int`), Go's `time.Duration`. -/

structure AuthenticationError where
  Code : Int
  Message : String
  Details : String
  TypeTag : String  -- the Go struct field named Type
deriving DecidableEq, Repr

structure RateLimitError where
  Code : Int
  Message : String
  Details : String
  TypeTag : String  -- the Go struct field named Type
  RetryAfter : Int
deriving DecidableEq, Repr

structure ValidationError where
  Code : Int
  Message : String
  Details : String
  TypeTag : String  -- the Go struct field named Type
  Field : String
deriving DecidableEq, Repr

structure NetworkError where
  Code : Int
  Message : String
  Details : String
  TypeTag : String  -- the Go struct field named Type
  Temporary : Bool
deriving DecidableEq, Repr

structure APIError where
  Code : Int
  Message : String
  Details : String
  TypeTag : String  -- the Go struct field named Type
  RequestID : String
deriving DecidableEq, Repr

def NewAuthenticationError (code : Int) (message details : String) : AuthenticationError :=
  ⟨code, message, details, "authentication_error"⟩

def NewRateLimitError (code : Int) (message details : String) (retryAfter : Int) :
    RateLimitError :=
  ⟨code, message, details, "rate_limit_error", retryAfter⟩

def NewValidationError (code : Int) (message details field : String) : ValidationError :=
  ⟨code, message, details, "validation_error", field⟩

def NewNetworkError (code : Int) (message details : String) (temporary : Bool) : NetworkError :=
  ⟨code, message, details, "network_error", temporary⟩

def NewAPIError (code : Int) (message details requestID : String) : APIError :=
  ⟨code, message, details, "api_error", requestID⟩

/-- A Go `error` value that may be one of the taxonomy kinds or a plain
`errors.New` error.  A Go `error` variable may also be `nil`; the predicates
below therefore take an `Option GoError` with `none` for `nil`. -/
inductive GoError where
  | auth (e : AuthenticationError)
  | rateLimit (e : RateLimitError)
  | validation (e : ValidationError)
  | network (e : NetworkError)
  | api (e : APIError)
  | plain (msg : String)
deriving DecidableEq, Repr

def IsAuthenticationError : Option GoError → Bool
  | some (.auth _) => true
  | _ => false

def IsRateLimitError : Option GoError → Bool
  | some (.rateLimit _) => true
  | _ => false

def IsValidationError : Option GoError → Bool
  | some (.validation _) => true
  | _ => false

def IsNetworkError : Option GoError → Bool
  | some (.network _) => true
  | _ => false

def IsAPIError : Option GoError → Bool
  | some (.api _) => true
  | _ => false

/-- `errors.As(err, &target)` for `target : *AuthenticationError`: succeeds
exactly on the matching concrete type, yielding the typed value. -/
def AsAuthenticationError : Option GoError → Option AuthenticationError
  | some (.auth e) => some e
  | _ => none

def AsRateLimitError : Option GoError → Option RateLimitError
  | some (.rateLimit e) => some e
  | _ => none

def AsValidationError : Option GoError → Option ValidationError
  | some (.validation e) => some e
  | _ => none

def AsNetworkError : Option GoError → Option NetworkError
  | some (.network e) => some e
  | _ => none

def AsAPIError : Option GoError → Option APIError
  | some (.api e) => some e
  | _ => none

/-! ### Credentials expiry

Modelled from the spec: "Credentials / TokenInfo: access token, token type,
expiry timestamp, …"; "`IsExpired()` is false for a zero-value expiry and for
any future expiry; true for any past expiry."  Timestamps are integer Unix
nanoseconds; Go's zero `time.Time` (for which `IsZero()` is true) is encoded
as `0`, and the current instant is an explicit argument.  The zero-expiry
behaviour of both methods is pinned by `TestCredentials_IsExpired` and
`TestCredentials_IsExpiringSoon` (zero expiry is neither expired nor
expiring soon). -/

structure Credentials where
  AccessToken : String
  TokenType : String
  ExpiresAt : Int
deriving DecidableEq, Repr

/-- `IsExpired` reports whether the expiry lies strictly in the past
(`time.Now().After(c.ExpiresAt)`); a zero-value expiry never expires. -/
def Credentials.IsExpired (c : Credentials) (now : Int) : Bool :=
  if c.ExpiresAt = 0 then false else decide (c.ExpiresAt < now)

/-- `IsExpiringSoon(within)` reports whether the time remaining until expiry
(`time.Until(c.ExpiresAt)`) is at most `within`; a zero-value expiry is never
expiring soon. -/
def Credentials.IsExpiringSoon (c : Credentials) (now window : Int) : Bool :=
  if c.ExpiresAt = 0 then false else decide (c.ExpiresAt - now ≤ window)

/-! ### Validator

Modelled from the spec: "pure, stateless checks returning a ValidationError
(kind=Validation) or nil"; behaviour pinned by `TestValidation` and
`TestValidationMoreCases`. -/

/-- `ValidateCarouselChildren(count)` — "fails if count is 0 or exceeds 20
(valid range 2–20 is enforced by this method; … implementer must treat 1 as
invalid too since carousels need ≥2 items)". -/
def Validator.ValidateCarouselChildren (count : Int) : Option ValidationError :=
  if count < 2 || count > 20 then
    some (NewValidationError 400 "carousel requires between 2 and 20 children"
      "children count out of range" "children")
  else
    none

/-- Split a character stream into maximal whitespace-free words, `acc`
holding the (reversed) word being read — Go's `strings.Fields`. -/
def fieldsAux : List Char → List Char → List String
  | [], acc => if acc.isEmpty then [] else [⟨acc.reverse⟩]
  | c :: cs, acc =>
    if c.isWhitespace then
      if acc.isEmpty then fieldsAux cs [] else ⟨acc.reverse⟩ :: fieldsAux cs []
    else
      fieldsAux cs (c :: acc)

def fields (s : String) : List String := fieldsAux s.data []

/-- Go's `strings.HasPrefix`. -/
def hasPrefix (s pre : String) : Bool := pre.data.isPrefixOf s.data

/-- All whitespace-separated tokens of `text` that begin with `http://` or
`https://` — the link-extraction step of `ValidateLinkCount`. -/
def extractLinks (text : String) : List String :=
  (fields text).filter (fun tok => hasPrefix tok "http://" || hasPrefix tok "https://")

/-- `ValidateLinkCount(text, linkAttachment)` — "extracts all
`http(s)://`-prefixed substrings from `text`, forms the unique set, adds
`linkAttachment` (if non-empty) to that set, and fails if the resulting
unique-link count exceeds 5. Link de-duplication is by exact string match." -/
def Validator.ValidateLinkCount (text linkAttachment : String) : Option ValidationError :=
  let links := extractLinks text
  let allLinks := if linkAttachment = "" then links else links ++ [linkAttachment]
  if allLinks.dedup.length > 5 then
    some (NewValidationError 400 "too many links" "a post may contain at most 5 links" "text")
  else
    none

/-! ### Container builder

Modelled from the spec: "fluent accumulation of outgoing creation parameters
for any content type …  Each `SetX(value)` stores `value` under a fixed field
key, except booleans (store only when true, field absent when false) and
nil/empty inputs (field absent)."  Keys and empty/nil/false behaviour are
pinned by the `TestContainerBuilder_SetX` test suite.  The parameter set
(Go's `url.Values`) is a field-name/value association, `Get` returning the
first value for a key and `""` when the key is absent. -/

abbrev Params := List (String × String)

def Params.Get (ps : Params) (key : String) : String :=
  match ps.find? (fun p => p.1 = key) with
  | some p => p.2
  | none => ""

/-- All values stored under `key`, in insertion order (`params[key]`). -/
def Params.GetAll (ps : Params) (key : String) : List String :=
  (ps.filter (fun p => p.1 = key)).map (fun p => p.2)

/-- `url.Values.Set`: replace the value under `key` if present, else append. -/
def Params.set (ps : Params) (key value : String) : Params :=
  if ps.any (fun p => p.1 = key) then
    ps.map (fun p => if p.1 = key then (key, value) else p)
  else
    ps ++ [(key, value)]

structure PollAttachment where
  OptionA : String
  OptionB : String
  OptionC : String
  OptionD : String
deriving DecidableEq, Repr

structure GIFAttachment where
  GIFID : String
  Provider : String
deriving DecidableEq, Repr

structure TextAttachment where
  Plaintext : String
deriving DecidableEq, Repr

structure TextEntity where
  Offset : Int
  Length : Int
deriving DecidableEq, Repr

/-- Decimal rendering of an `Int` (Go `strconv.Itoa`): base 10, no thousands
separators, a leading `-` for negative values. -/
def intDecimal (n : Int) : String :=
  if n < 0 then "-" ++ Nat.repr n.natAbs else Nat.repr n.natAbs

def jsonString (s : String) : String := "\"" ++ s ++ "\""

/-- Compact JSON serialization of a poll attachment. -/
def PollAttachment.toJSON (p : PollAttachment) : String :=
  "\x7b\"option_a\":" ++ jsonString p.OptionA ++ ",\"option_b\":" ++ jsonString p.OptionB ++
    ",\"option_c\":" ++ jsonString p.OptionC ++ ",\"option_d\":" ++ jsonString p.OptionD ++ "\x7d"

def GIFAttachment.toJSON (g : GIFAttachment) : String :=
  "\x7b\"gif_id\":" ++ jsonString g.GIFID ++ ",\"provider\":" ++ jsonString g.Provider ++ "\x7d"

def TextAttachment.toJSON (a : TextAttachment) : String :=
  "\x7b\"plaintext\":" ++ jsonString a.Plaintext ++ "\x7d"

def TextEntity.toJSON (e : TextEntity) : String :=
  "\x7b\"offset\":" ++ intDecimal e.Offset ++ ",\"length\":" ++ intDecimal e.Length ++ "\x7d"

def textEntitiesJSON (es : List TextEntity) : String :=
  "[" ++ String.intercalate "," (es.map TextEntity.toJSON) ++ "]"

structure ContainerBuilder where
  params : Params
  children : List String

def NewContainerBuilder : ContainerBuilder := ⟨[], []⟩

/-- Shared body of the string-valued setters: a non-empty value is stored
under the setter's fixed key, an empty value leaves the builder unchanged. -/
def ContainerBuilder.setIfNonEmpty (b : ContainerBuilder) (key value : String) :
    ContainerBuilder :=
  if value = "" then b else { b with params := Params.set b.params key value }

/-- Shared body of the boolean setters: `"true"` is stored only when the flag
is true; a false flag leaves the builder unchanged. -/
def ContainerBuilder.setFlag (b : ContainerBuilder) (key : String) (value : Bool) :
    ContainerBuilder :=
  if value then { b with params := Params.set b.params key "true" } else b

def ContainerBuilder.SetMediaType (b : ContainerBuilder) (v : String) : ContainerBuilder :=
  b.setIfNonEmpty "media_type" v

def ContainerBuilder.SetText (b : ContainerBuilder) (v : String) : ContainerBuilder :=
  b.setIfNonEmpty "text" v

def ContainerBuilder.SetImageURL (b : ContainerBuilder) (v : String) : ContainerBuilder :=
  b.setIfNonEmpty "image_url" v

def ContainerBuilder.SetVideoURL (b : ContainerBuilder) (v : String) : ContainerBuilder :=
  b.setIfNonEmpty "video_url" v

def ContainerBuilder.SetAltText (b : ContainerBuilder) (v : String) : ContainerBuilder :=
  b.setIfNonEmpty "alt_text" v

def ContainerBuilder.SetReplyTo (b : ContainerBuilder) (v : String) : ContainerBuilder :=
  b.setIfNonEmpty "reply_to_id" v

def ContainerBuilder.SetReplyControl (b : ContainerBuilder) (v : String) : ContainerBuilder :=
  b.setIfNonEmpty "reply_control" v

def ContainerBuilder.SetTopicTag (b : ContainerBuilder) (v : String) : ContainerBuilder :=
  b.setIfNonEmpty "topic_tag" v

def ContainerBuilder.SetLocationID (b : ContainerBuilder) (v : String) : ContainerBuilder :=
  b.setIfNonEmpty "location_id" v

def ContainerBuilder.SetQuotePostID (b : ContainerBuilder) (v : String) : ContainerBuilder :=
  b.setIfNonEmpty "quote_post_id" v

def ContainerBuilder.SetLinkAttachment (b : ContainerBuilder) (v : String) : ContainerBuilder :=
  b.setIfNonEmpty "link_attachment" v

def ContainerBuilder.SetAutoPublishText (b : ContainerBuilder) (v : Bool) : ContainerBuilder :=
  b.setFlag "auto_publish_text" v

def ContainerBuilder.SetIsCarouselItem (b : ContainerBuilder) (v : Bool) : ContainerBuilder :=
  b.setFlag "is_carousel_item" v

def ContainerBuilder.SetIsGhostPost (b : ContainerBuilder) (v : Bool) : ContainerBuilder :=
  b.setFlag "is_ghost_post" v

def ContainerBuilder.SetIsSpoilerMedia (b : ContainerBuilder) (v : Bool) : ContainerBuilder :=
  b.setFlag "is_spoiler_media" v

/-- A nil poll pointer produces no field; a poll is serialized to JSON. -/
def ContainerBuilder.SetPollAttachment (b : ContainerBuilder) (poll : Option PollAttachment) :
    ContainerBuilder :=
  match poll with
  | none => b
  | some p => { b with params := Params.set b.params "poll_attachment" p.toJSON }

def ContainerBuilder.SetGIFAttachment (b : ContainerBuilder) (gif : Option GIFAttachment) :
    ContainerBuilder :=
  match gif with
  | none => b
  | some g => { b with params := Params.set b.params "gif_attachment" g.toJSON }

def ContainerBuilder.SetTextAttachment (b : ContainerBuilder) (att : Option TextAttachment) :
    ContainerBuilder :=
  match att with
  | none => b
  | some a => { b with params := Params.set b.params "text_attachment" a.toJSON }

/-- A nil or empty entity list produces no field. -/
def ContainerBuilder.SetTextEntities (b : ContainerBuilder) (es : List TextEntity) :
    ContainerBuilder :=
  if es.isEmpty then b
  else { b with params := Params.set b.params "text_entities" (textEntitiesJSON es) }

/-- Each code becomes one value of the multi-valued field; a nil or empty
list produces no field. -/
def ContainerBuilder.SetAllowlistedCountryCodes (b : ContainerBuilder) (codes : List String) :
    ContainerBuilder :=
  if codes.isEmpty then b
  else { b with params := b.params ++ codes.map (fun c => ("allowlisted_country_codes", c)) }

def ContainerBuilder.AddChild (b : ContainerBuilder) (id : String) : ContainerBuilder :=
  { b with children := b.children ++ [id] }

/-- Replaces the child list wholesale; a nil/empty list, like every other
zero-value setter input, is silently ignored. -/
def ContainerBuilder.SetChildren (b : ContainerBuilder) (ids : List String) : ContainerBuilder :=
  if ids.isEmpty then b else { b with children := ids }

/-- `Build()`: the accumulated field/value pairs; the child list is projected
both into the multi-valued `children` field and into indexed scalar fields
`children[0]`, `children[1]`, …. -/
def ContainerBuilder.Build (b : ContainerBuilder) : Params :=
  b.params ++ b.children.map (fun c => ("children", c)) ++
    b.children.enum.map (fun p => ("children[" ++ Nat.repr p.1 ++ "]", p.2))

/-- A dynamically-typed Go value (`interface\x7b\x7d`) as passed to the
builder's `toString` helper: the unit tests exercise strings, ints, a
float64, and nil; booleans stand in for the remaining non-numeric types. -/
inductive GoValue where
  | str (s : String)
  | intv (n : Int)
  | floatv (num : Int) (den : Nat)
  | boolv (b : Bool)
  | nilv
deriving DecidableEq, Repr

/-- A value carrying a number (int or floating point). -/
def GoValue.isNumeric : GoValue → Bool
  | .intv _ => true
  | .floatv _ _ => true
  | _ => false

/-- The builder's `toString` helper: strings pass through, `int` is rendered
through `strconv.Itoa`, and every other dynamic type — including float64 and
nil — falls into the default case and renders as the empty string. -/
def ContainerBuilder.toString (_b : ContainerBuilder) : GoValue → String
  | .str s => s
  | .intv n => intDecimal n
  | _ => ""

/-- One fluent-configuration call on the builder. -/
inductive BuilderAction where
  | setMediaType (v : String)
  | setText (v : String)
  | setImageURL (v : String)
  | setVideoURL (v : String)
  | setAltText (v : String)
  | setReplyTo (v : String)
  | setReplyControl (v : String)
  | setTopicTag (v : String)
  | setLocationID (v : String)
  | setQuotePostID (v : String)
  | setLinkAttachment (v : String)
  | setAutoPublishText (v : Bool)
  | setIsCarouselItem (v : Bool)
  | setIsGhostPost (v : Bool)
  | setIsSpoilerMedia (v : Bool)
  | setPollAttachment (v : Option PollAttachment)
  | setGIFAttachment (v : Option GIFAttachment)
  | setTextAttachment (v : Option TextAttachment)
  | setTextEntities (v : List TextEntity)
  | setAllowlistedCountryCodes (v : List String)
  | setChildren (v : List String)
  | addChild (v : String)
deriving DecidableEq

def applyAction (b : ContainerBuilder) : BuilderAction → ContainerBuilder
  | .setMediaType v => b.SetMediaType v
  | .setText v => b.SetText v
  | .setImageURL v => b.SetImageURL v
  | .setVideoURL v => b.SetVideoURL v
  | .setAltText v => b.SetAltText v
  | .setReplyTo v => b.SetReplyTo v
  | .setReplyControl v => b.SetReplyControl v
  | .setTopicTag v => b.SetTopicTag v
  | .setLocationID v => b.SetLocationID v
  | .setQuotePostID v => b.SetQuotePostID v
  | .setLinkAttachment v => b.SetLinkAttachment v
  | .setAutoPublishText v => b.SetAutoPublishText v
  | .setIsCarouselItem v => b.SetIsCarouselItem v
  | .setIsGhostPost v => b.SetIsGhostPost v
  | .setIsSpoilerMedia v => b.SetIsSpoilerMedia v
  | .setPollAttachment v => b.SetPollAttachment v
  | .setGIFAttachment v => b.SetGIFAttachment v
  | .setTextAttachment v => b.SetTextAttachment v
  | .setTextEntities v => b.SetTextEntities v
  | .setAllowlistedCountryCodes v => b.SetAllowlistedCountryCodes v
  | .setChildren v => b.SetChildren v
  | .addChild v => b.AddChild v

/-- Whether a setter call carries its argument type's zero value: the empty
string, `false`, a nil pointer, or a nil/empty slice.  (`AddChild` is an
append, not a `SetX` setter, and is excluded.) -/
def BuilderAction.isZeroCall : BuilderAction → Bool
  | .setMediaType v => v = ""
  | .setText v => v = ""
  | .setImageURL v => v = ""
  | .setVideoURL v => v = ""
  | .setAltText v => v = ""
  | .setReplyTo v => v = ""
  | .setReplyControl v => v = ""
  | .setTopicTag v => v = ""
  | .setLocationID v => v = ""
  | .setQuotePostID v => v = ""
  | .setLinkAttachment v => v = ""
  | .setAutoPublishText v => v = false
  | .setIsCarouselItem v => v = false
  | .setIsGhostPost v => v = false
  | .setIsSpoilerMedia v => v = false
  | .setPollAttachment v => v = none
  | .setGIFAttachment v => v = none
  | .setTextAttachment v => v = none
  | .setTextEntities v => v = []
  | .setAllowlistedCountryCodes v => v = []
  | .setChildren v => v = []
  | .addChild _ => false

/-- The fixed field key and argument of the string-valued setters. -/
def BuilderAction.stringSetterView : BuilderAction → Option (String × String)
  | .setMediaType v => some ("media_type", v)
  | .setText v => some ("text", v)
  | .setImageURL v => some ("image_url", v)
  | .setVideoURL v => some ("video_url", v)
  | .setAltText v => some ("alt_text", v)
  | .setReplyTo v => some ("reply_to_id", v)
  | .setReplyControl v => some ("reply_control", v)
  | .setTopicTag v => some ("topic_tag", v)
  | .setLocationID v => some ("location_id", v)
  | .setQuotePostID v => some ("quote_post_id", v)
  | .setLinkAttachment v => some ("link_attachment", v)
  | _ => none

/-- The fixed field key and argument of the boolean setters. -/
def BuilderAction.boolSetterView : BuilderAction → Option (String × Bool)
  | .setAutoPublishText v => some ("auto_publish_text", v)
  | .setIsCarouselItem v => some ("is_carousel_item", v)
  | .setIsGhostPost v => some ("is_ghost_post", v)
  | .setIsSpoilerMedia v => some ("is_spoiler_media", v)
  | _ => none

/-! ### Domain read operations

Modelled from the spec: "Control flow: a domain operation validates inputs →
… issues the HTTP call through the transport wrapper", with "validation
happens synchronously before any network call — no partial side effects
occur for invalid input".  The transport is passed in explicitly and every
operation returns, besides its result, the list of HTTP requests it issued,
so that "no HTTP request" is visible in the result.  Expected error fields
are pinned by `TestGetPost_InvalidPostID` and
`TestGetLocation_InvalidLocationID`. -/

structure HTTPRequest where
  method : String
  path : String
deriving DecidableEq, Repr

structure Post where
  ID : String
  Text : String
  MediaType : String
deriving DecidableEq, Repr

structure Location where
  ID : String
  Name : String
deriving DecidableEq, Repr

/-- `Client.GetPost`: an invalid (blank) post id fails synchronously with a
`ValidationError` on field `post_id` before the transport is consulted;
otherwise one GET request is issued and its classified outcome returned. -/
def Client.GetPost (transport : HTTPRequest → Except GoError Post) (postID : PostID) :
    Except GoError Post × List HTTPRequest :=
  if postID.Valid then
    let req : HTTPRequest := ⟨"GET", "/" ++ postID.raw⟩
    (transport req, [req])
  else
    (.error (.validation (NewValidationError 400 "invalid post ID"
      "post_id must be non-empty" "post_id")), [])

/-- `Client.GetLocation`: an invalid (blank) location id fails synchronously
with a `ValidationError` on field `location_id` before the transport is
consulted. -/
def Client.GetLocation (transport : HTTPRequest → Except GoError Location)
    (locationID : LocationID) : Except GoError Location × List HTTPRequest :=
  if locationID.Valid then
    let req : HTTPRequest := ⟨"GET", "/" ++ locationID.raw⟩
    (transport req, [req])
  else
    (.error (.validation (NewValidationError 400 "invalid location ID"
      "location_id must be non-empty" "location_id")), [])

/-! ### OAuth authorization URL

Modelled from the spec: "`GetAuthURL(scopes)`: builds an authorization URL
containing `client_id`, `response_type=code`, a freshly-generated random
`state` parameter (must differ across calls …), and the requested scopes,
defaulting to a fixed scope set when `scopes` is nil or empty" and
"authorization URL is
`<authorize-endpoint>?client_id=...&redirect_uri=...&response_type=code&scope=<comma-joined>&state=<random>`".
The state generator draws 16 bytes from the process's entropy source
(`crypto/rand`) and hex-encodes them; the entropy is modelled as an explicit
byte-stream argument, each call consuming one stream. -/

structure Config where
  ClientID : String
  ClientSecret : String
  RedirectURI : String
  Scopes : List String
deriving DecidableEq, Repr

def authorizeEndpoint : String := "https://www.threads.net/oauth/authorize"

/-- The lowercase hexadecimal digit for `n < 16`: `0`–`9` then `a`–`f`. -/
def hexDigitChar (n : Nat) : Char :=
  if n < 10 then Char.ofNat (48 + n) else Char.ofNat (87 + n)

/-- Lowercase hex encoding of a byte list (`hex.EncodeToString`); each byte
is reduced mod 256 and yields exactly two characters. -/
def hexChars : List Nat → List Char
  | [] => []
  | b :: rest => hexDigitChar (b % 256 / 16) :: hexDigitChar (b % 16) :: hexChars rest

/-- `generateState`: 16 random bytes, hex-encoded. -/
def generateState (entropy : List Nat) : String :=
  ⟨hexChars (entropy.take 16)⟩

/-- `Client.GetAuthURL(scopes)`; a nil or empty scope list falls back to the
configured default scope set. -/
def Client.GetAuthURL (cfg : Config) (scopes : Option (List String)) (entropy : List Nat) :
    String :=
  let effectiveScopes :=
    match scopes with
    | none => cfg.Scopes
    | some [] => cfg.Scopes
    | some ss => ss
  authorizeEndpoint ++ "?client_id=" ++ cfg.ClientID ++
    "&redirect_uri=" ++ cfg.RedirectURI ++
    "&response_type=code&scope=" ++ String.intercalate "," effectiveScopes ++
    "&state=" ++ generateState entropy

/-! ### Media-container flow (carousel)

Embedded from the carousel code of `internal/cmd/posts.go` as recorded in the
repository's development plan: `newPostsCarouselCmd` and `waitForContainer`.
`waitForContainer` starts a 5-minute (300 s) timeout and a 2-second ticker
and, on every tick, fetches the container status: `FINISHED` succeeds,
`ERROR` fails with the container's error detail, anything else keeps
waiting; when the timeout channel fires first the wait fails with a timeout
error.  Ticks fire at 2 s, 4 s, …; the tick coinciding with the 300 s
timeout is modelled as lost to the timeout, so at most
`(300 - 1) / 2 = 149` polls occur.  Each poll is one `GetContainerStatus`
call, which can itself fail. -/

inductive ContainerStatus where
  | finished
  | errored (detail : String)
  | inProgress
deriving DecidableEq, Repr

inductive WaitResult where
  | success
  | containerError (detail : String)
  | requestError (e : String)
  | timedOut
deriving DecidableEq, Repr

def pollIntervalSeconds : Nat := 2

def containerTimeoutSeconds : Nat := 300

/-- Number of ticker fires that beat the timeout: ticks at 2 s, …, 298 s. -/
def maxPolls : Nat := (containerTimeoutSeconds - 1) / pollIntervalSeconds

/-- The polling loop of `waitForContainer`: `k` is the index of the next
poll, `fuel` the number of ticks remaining before the timeout fires. -/
def waitLoop (poll : Nat → Except String ContainerStatus) : Nat → Nat → WaitResult
  | _, 0 => .timedOut
  | k, fuel + 1 =>
    match poll k with
    | .error e => .requestError e
    | .ok .finished => .success
    | .ok (.errored d) => .containerError d
    | .ok .inProgress => waitLoop poll (k + 1) fuel

def waitForContainer (poll : Nat → Except String ContainerStatus) : WaitResult :=
  waitLoop poll 0 maxPolls

/-- One `--items` entry of the carousel command: the outcome of its
`CreateMediaContainer` call and the status sequence its
`GetContainerStatus` polls observe. -/
structure CarouselItem where
  create : Except String ContainerID
  poll : Nat → Except String ContainerStatus

/-- The per-item loop of `newPostsCarouselCmd`: create each media container
in order, wait for it, and abort on the first failure; on success the child
container ids accumulate in order. -/
def runItems : List CarouselItem → Except String (List String)
  | [] => .ok []
  | item :: rest =>
    match item.create with
    | .error e => .error ("failed to create container: " ++ e)
    | .ok cid =>
      match waitForContainer item.poll with
      | .success =>
        match runItems rest with
        | .error e => .error e
        | .ok cids => .ok (cid.raw :: cids)
      | .containerError d => .error ("container not ready: container error: " ++ d)
      | .requestError e => .error ("container not ready: " ++ e)
      | .timedOut => .error "container not ready: timeout waiting for container"

/-- Result of one run of the carousel command: whether the carousel-level
`CreateCarouselPost` publish call was issued, and the command's outcome. -/
structure CarouselRun where
  published : Bool
  result : Except String (List String)
deriving Repr

/-- `newPostsCarouselCmd`'s `RunE`: bounds checks on the item count, then the
per-item create/wait loop, and only if every item finished does the
carousel-level publish call go out. -/
def runCarousel (items : List CarouselItem) : CarouselRun :=
  if items.length < 2 then ⟨false, .error "carousel requires at least 2 items"⟩
  else if items.length > 20 then ⟨false, .error "carousel supports maximum 20 items"⟩
  else
    match runItems items with
    | .error e => ⟨false, .error e⟩
    | .ok cids => ⟨true, .ok cids⟩

/-! ## Theorems -/

/-- C4: for every raw string `s` and every identifier type (PostID, UserID,
ContainerID, LocationID), converting `s` and calling `Valid()` returns true
iff `s` is non-empty after trimming whitespace, and `String()` returns the
wrapped string unchanged. -/
theorem identifier_valid_iff_trim_nonempty :
    ∀ s : String,
      ((ConvertToPostID s).Valid = true ↔ trimSpace s ≠ "") ∧ (ConvertToPostID s).str = s ∧
      ((ConvertToUserID s).Valid = true ↔ trimSpace s ≠ "") ∧ (ConvertToUserID s).str = s ∧
      ((ConvertToContainerID s).Valid = true ↔ trimSpace s ≠ "") ∧ (ConvertToContainerID s).str = s ∧
      ((ConvertToLocationID s).Valid = true ↔ trimSpace s ≠ "") ∧ (ConvertToLocationID s).str = s := by
  intro s
  refine ⟨?_, rfl, ?_, rfl, ?_, rfl, ?_, rfl⟩ <;>
    simp [ConvertToPostID, ConvertToUserID, ConvertToContainerID, ConvertToLocationID,
      PostID.Valid, UserID.Valid, ContainerID.Valid, LocationID.Valid]

/-- C7: `ValidateCarouselChildren` rejects exactly the counts outside the
valid range 2–20: it errors for 0, for 1, and for every count above 20, and
succeeds for every count from 2 through 20. -/
theorem validateCarouselChildren_iff :
    ∀ count : Int,
      (Validator.ValidateCarouselChildren count).isSome = true ↔ (count < 2 ∨ 20 < count) := by
  intro count
  simp only [Validator.ValidateCarouselChildren]
  split <;> simp_all

/-- C10: each error-kind predicate returns true exactly for errors of its own
kind, and false for nil, for the other taxonomy kinds, and for plain errors;
typed extraction (`errors.As`) succeeds exactly for the matching concrete
type. -/
theorem error_kind_predicates_exact :
    ∀ e : Option GoError,
      (IsAuthenticationError e = true ↔ ∃ a, e = some (.auth a)) ∧
      (IsRateLimitError e = true ↔ ∃ a, e = some (.rateLimit a)) ∧
      (IsValidationError e = true ↔ ∃ a, e = some (.validation a)) ∧
      (IsNetworkError e = true ↔ ∃ a, e = some (.network a)) ∧
      (IsAPIError e = true ↔ ∃ a, e = some (.api a)) ∧
      (∀ a, AsAuthenticationError e = some a ↔ e = some (.auth a)) ∧
      (∀ a, AsRateLimitError e = some a ↔ e = some (.rateLimit a)) ∧
      (∀ a, AsValidationError e = some a ↔ e = some (.validation a)) ∧
      (∀ a, AsNetworkError e = some a ↔ e = some (.network a)) ∧
      (∀ a, AsAPIError e = some a ↔ e = some (.api a)) := by
  intro e
  refine ⟨?_, ?_, ?_, ?_, ?_, ?_, ?_, ?_, ?_, ?_⟩ <;>
    (rcases e with _ | e <;> [skip; rcases e]) <;>
      simp [IsAuthenticationError, IsRateLimitError, IsValidationError, IsNetworkError,
        IsAPIError, AsAuthenticationError, AsRateLimitError, AsValidationError,
        AsNetworkError, AsAPIError, eq_comm]

/-- C3 as stated is false on the code: a credential with the zero-value
expiry satisfies `expiry - now ≤ window` (its expiry encodes to the distant
past) yet `IsExpiringSoon` returns false for it, as
`TestCredentials_IsExpiringSoon`'s "zero expiry - not expiring soon" case
demands. -/
theorem credentials_expiringSoon_zero_counterexample :
    Credentials.IsExpiringSoon ⟨"tok", "bearer", 0⟩ 100 10 = false ∧
      ((0 : Int) - 100 ≤ 10) := by
  constructor
  · rfl
  · decide

/-- C3 amended: `IsExpired` is true iff the expiry is non-zero and strictly
past; `IsExpiringSoon(window)` is true iff the expiry is non-zero and
`expiry - now ≤ window` (including already-expired credentials); a
zero-value expiry is never expired and never expiring soon. -/
theorem credentials_expiry_amended :
    ∀ (c : Credentials) (now window : Int),
      (c.IsExpired now = true ↔ (c.ExpiresAt ≠ 0 ∧ c.ExpiresAt < now)) ∧
      (c.IsExpiringSoon now window = true ↔ (c.ExpiresAt ≠ 0 ∧ c.ExpiresAt - now ≤ window)) := by
  intro c now window
  by_cases h : c.ExpiresAt = 0 <;>
    simp [Credentials.IsExpired, Credentials.IsExpiringSoon, h]

/-- C8 as stated is false on the code: a float64 input is a numeric value,
yet `toString` renders it as the empty string rather than via base-10
decimal formatting (every decimal numeral is non-empty), as
`TestContainerBuilder_toString`'s "other type" case (3.14 → "") demands. -/
theorem toString_float_counterexample :
    GoValue.isNumeric (GoValue.floatv 157 50) = true ∧
      ContainerBuilder.toString NewContainerBuilder (GoValue.floatv 157 50) = "" :=
  ⟨rfl, rfl⟩

/-- C8 amended: `toString` renders integer values via base-10 decimal
formatting with no thousands separators, including negative values; strings
pass through unchanged; and floating-point, boolean and nil inputs render as
the empty string rather than erroring. -/
theorem toString_amended :
    ∀ b : ContainerBuilder,
      (∀ s, b.toString (.str s) = s) ∧
      (∀ n : Int, b.toString (.intv n) = intDecimal n) ∧
      (∀ num den, b.toString (.floatv num den) = "") ∧
      (∀ bv, b.toString (.boolv bv) = "") ∧
      b.toString .nilv = "" ∧
      b.toString (.intv 0) = "0" ∧
      b.toString (.intv 123) = "123" ∧
      b.toString (.intv (-456)) = "-456" ∧
      b.toString (.intv 1000000) = "1000000" := by
  intro b
  exact ⟨fun s => rfl, fun n => rfl, fun num den => rfl, fun bv => rfl, rfl, rfl, rfl, rfl, rfl⟩

/-- C2: `ValidateLinkCount` fails iff the number of distinct links — the
`http://`/`https://`-prefixed tokens of the text, de-duplicated by exact
string match, together with a non-empty link attachment — exceeds 5; in
particular duplicated links count once, and 5 unique text links plus one new
attachment link fail. -/
theorem validateLinkCount_iff :
    ∀ text linkAttachment : String,
      ((Validator.ValidateLinkCount text linkAttachment).isSome = true ↔
        5 < (extractLinks text ++
          (if linkAttachment = "" then [] else [linkAttachment])).toFinset.card) ∧
      Validator.ValidateLinkCount "http://a.com http://a.com http://b.com" "" = none ∧
      (Validator.ValidateLinkCount
        "http://a.com https://b.com http://c.com https://d.com http://e.com"
        "http://f.com").isSome = true := by
  intro text att
  refine ⟨?_, by decide, by decide⟩
  simp only [Validator.ValidateLinkCount]
  rw [List.card_toFinset]
  have happ : (if att = "" then extractLinks text else extractLinks text ++ [att]) =
      extractLinks text ++ (if att = "" then [] else [att]) := by
    split <;> simp
  rw [← happ]
  split <;> simp_all

/-- C1: a domain read operation called with an invalid identifier fails
synchronously with a `ValidationError` naming the offending field before any
network call: `GetPost` on a blank post id yields field `post_id`,
`GetLocation` on a blank location id yields field `location_id`, and in both
cases the list of issued HTTP requests is empty, whatever the transport. -/
theorem get_invalid_id_validates_before_network :
    ∀ (s : String) (tp : HTTPRequest → Except GoError Post)
      (tl : HTTPRequest → Except GoError Location),
      trimSpace s = "" →
      (∃ e : ValidationError,
        (Client.GetPost tp (ConvertToPostID s)).1 = .error (.validation e) ∧
          e.Field = "post_id") ∧
      (Client.GetPost tp (ConvertToPostID s)).2 = [] ∧
      (∃ e : ValidationError,
        (Client.GetLocation tl (ConvertToLocationID s)).1 = .error (.validation e) ∧
          e.Field = "location_id") ∧
      (Client.GetLocation tl (ConvertToLocationID s)).2 = [] := by
  intro s tp tl hs
  have hp : (ConvertToPostID s).Valid = false := by
    simp [ConvertToPostID, PostID.Valid, hs]
  have hl : (ConvertToLocationID s).Valid = false := by
    simp [ConvertToLocationID, LocationID.Valid, hs]
  refine ⟨⟨NewValidationError 400 "invalid post ID" "post_id must be non-empty" "post_id",
      ?_, rfl⟩, ?_,
    ⟨NewValidationError 400 "invalid location ID" "location_id must be non-empty" "location_id",
      ?_, rfl⟩, ?_⟩ <;>
    simp [Client.GetPost, Client.GetLocation, hp, hl]

/-- Witness for C1 at the empty string, with transports that would report a
plain error if they were ever consulted. -/
theorem get_invalid_id_validates_before_network_witness :
    (∃ e : ValidationError,
      (Client.GetPost (fun _ => .error (.plain "transport hit"))
          (ConvertToPostID "")).1 = .error (.validation e) ∧ e.Field = "post_id") ∧
    (Client.GetPost (fun _ => .error (.plain "transport hit")) (ConvertToPostID "")).2 = [] ∧
    (∃ e : ValidationError,
      (Client.GetLocation (fun _ => .error (.plain "transport hit"))
          (ConvertToLocationID "")).1 = .error (.validation e) ∧ e.Field = "location_id") ∧
    (Client.GetLocation (fun _ => .error (.plain "transport hit"))
        (ConvertToLocationID "")).2 = [] :=
  get_invalid_id_validates_before_network "" (fun _ => .error (.plain "transport hit"))
    (fun _ => .error (.plain "transport hit")) (by decide)

/-- C5: every builder setter called with an empty string, a nil
pointer/slice, or `false` is a no-op on the builder (so, in any sequence of
setter calls, such a call never emits that setter's field key in `Build()`,
and a sequence of only zero-value calls builds the empty parameter set);
string setters store their value under their fixed key exactly when it is
non-empty, and boolean setters store `"true"` exactly when called with
true. -/
theorem containerBuilder_zero_value_setters :
    (∀ (b : ContainerBuilder) (a : BuilderAction), a.isZeroCall = true → applyAction b a = b) ∧
    (∀ acts : List BuilderAction, (∀ a ∈ acts, a.isZeroCall = true) →
      ContainerBuilder.Build (acts.foldl applyAction NewContainerBuilder) = []) ∧
    (∀ (a : BuilderAction) (k v : String), a.stringSetterView = some (k, v) → v ≠ "" →
      Params.Get ((applyAction NewContainerBuilder a).Build) k = v) ∧
    (∀ (a : BuilderAction) (k : String) (v : Bool), a.boolSetterView = some (k, v) →
      Params.Get ((applyAction NewContainerBuilder a).Build) k =
        (if v then "true" else "")) := by
  have h1 : ∀ (b : ContainerBuilder) (a : BuilderAction), a.isZeroCall = true →
      applyAction b a = b := by
    intro b a h
    cases a <;>
      simp_all [applyAction, BuilderAction.isZeroCall, ContainerBuilder.SetMediaType,
        ContainerBuilder.SetText, ContainerBuilder.SetImageURL, ContainerBuilder.SetVideoURL,
        ContainerBuilder.SetAltText, ContainerBuilder.SetReplyTo,
        ContainerBuilder.SetReplyControl, ContainerBuilder.SetTopicTag,
        ContainerBuilder.SetLocationID, ContainerBuilder.SetQuotePostID,
        ContainerBuilder.SetLinkAttachment, ContainerBuilder.SetAutoPublishText,
        ContainerBuilder.SetIsCarouselItem, ContainerBuilder.SetIsGhostPost,
        ContainerBuilder.SetIsSpoilerMedia, ContainerBuilder.SetPollAttachment,
        ContainerBuilder.SetGIFAttachment, ContainerBuilder.SetTextAttachment,
        ContainerBuilder.SetTextEntities, ContainerBuilder.SetAllowlistedCountryCodes,
        ContainerBuilder.SetChildren, ContainerBuilder.setIfNonEmpty, ContainerBuilder.setFlag]
  refine ⟨h1, ?_, ?_, ?_⟩
  · intro acts hall
    have hfold : acts.foldl applyAction NewContainerBuilder = NewContainerBuilder := by
      induction acts with
      | nil => rfl
      | cons a t ih =>
        simp only [List.foldl_cons]
        rw [h1 _ _ (hall a (List.mem_cons_self a t))]
        exact ih (fun x hx => hall x (List.mem_cons_of_mem a hx))
    rw [hfold]
    rfl
  · intro a k v hview hv
    cases a <;> cases hview <;>
      simp [applyAction, ContainerBuilder.SetMediaType, ContainerBuilder.SetText,
        ContainerBuilder.SetImageURL, ContainerBuilder.SetVideoURL, ContainerBuilder.SetAltText,
        ContainerBuilder.SetReplyTo, ContainerBuilder.SetReplyControl,
        ContainerBuilder.SetTopicTag, ContainerBuilder.SetLocationID,
        ContainerBuilder.SetQuotePostID, ContainerBuilder.SetLinkAttachment,
        ContainerBuilder.setIfNonEmpty, Params.set, Params.Get, ContainerBuilder.Build,
        NewContainerBuilder, hv]
  · intro a k v hview
    cases a <;> cases hview <;> cases v <;>
      simp [applyAction, ContainerBuilder.SetAutoPublishText, ContainerBuilder.SetIsCarouselItem,
        ContainerBuilder.SetIsGhostPost, ContainerBuilder.SetIsSpoilerMedia,
        ContainerBuilder.setFlag, Params.set, Params.Get, ContainerBuilder.Build,
        NewContainerBuilder]

/-- Witness for C5: concrete zero-value calls leave the builder untouched
and build the empty parameter set, while concrete non-empty string and true
boolean calls store their values. -/
theorem containerBuilder_zero_value_setters_witness :
    applyAction NewContainerBuilder (.setText "") = NewContainerBuilder ∧
    ContainerBuilder.Build
      ([BuilderAction.setText "", .setAutoPublishText false, .setPollAttachment none,
        .setChildren []].foldl applyAction NewContainerBuilder) = [] ∧
    Params.Get ((applyAction NewContainerBuilder
      (.setImageURL "https://example.com/image.jpg")).Build) "image_url" =
        "https://example.com/image.jpg" ∧
    Params.Get ((applyAction NewContainerBuilder (.setAutoPublishText true)).Build)
        "auto_publish_text" = (if true then "true" else "") :=
  ⟨containerBuilder_zero_value_setters.1 _ _ (by decide),
    containerBuilder_zero_value_setters.2.1 _ (by decide),
    containerBuilder_zero_value_setters.2.2.1 _ _ _ rfl (by decide),
    containerBuilder_zero_value_setters.2.2.2 _ _ _ rfl⟩

/-- The container-status polling loop of `waitForContainer`: a poll sequence
that stays `inProgress` for the whole fuel budget times out. -/
theorem waitLoop_timeout (poll : Nat → Except String ContainerStatus) :
    ∀ (fuel k : Nat), (∀ j, j < fuel → poll (k + j) = .ok .inProgress) →
      waitLoop poll k fuel = .timedOut := by
  intro fuel
  induction fuel with
  | zero => intro k _; rfl
  | succ n ih =>
    intro k h
    have h0 : poll k = .ok .inProgress := by simpa using h 0 (Nat.succ_pos n)
    simp only [waitLoop, h0]
    exact ih (k + 1) (fun j hj => by
      have e : k + 1 + j = k + (j + 1) := by omega
      rw [e]; exact h (j + 1) (by omega))

/-- If the first `i` polls are `inProgress` and poll `i` is decisive
(`FINISHED` or `ERROR`) within the fuel budget, the loop returns that
verdict. -/
theorem waitLoop_first (poll : Nat → Except String ContainerStatus) :
    ∀ (i fuel k : Nat), i < fuel →
      (∀ j, j < i → poll (k + j) = .ok .inProgress) →
      ((poll (k + i) = .ok .finished → waitLoop poll k fuel = .success) ∧
       (∀ d, poll (k + i) = .ok (.errored d) → waitLoop poll k fuel = .containerError d)) := by
  intro i
  induction i with
  | zero =>
    intro fuel k hif _
    obtain ⟨f, rfl⟩ : ∃ f, fuel = f + 1 := ⟨fuel - 1, by omega⟩
    constructor
    · intro hfin
      rw [Nat.add_zero] at hfin
      simp [waitLoop, hfin]
    · intro d herr
      rw [Nat.add_zero] at herr
      simp [waitLoop, herr]
  | succ n ih =>
    intro fuel k hif hbefore
    obtain ⟨f, rfl⟩ : ∃ f, fuel = f + 1 := ⟨fuel - 1, by omega⟩
    have h0 : poll k = .ok .inProgress := by simpa using hbefore 0 (by omega)
    have step : waitLoop poll k (f + 1) = waitLoop poll (k + 1) f := by
      simp only [waitLoop, h0]
    have hbefore' : ∀ j, j < n → poll (k + 1 + j) = .ok .inProgress := by
      intro j hj
      have e : k + 1 + j = k + (j + 1) := by omega
      rw [e]; exact hbefore (j + 1) (by omega)
    have hrec := ih f (k + 1) (by omega) hbefore'
    have e : k + 1 + n = k + (n + 1) := by omega
    constructor
    · intro hfin
      rw [step]
      exact hrec.1 (by rw [e]; exact hfin)
    · intro d herr
      rw [step]
      exact hrec.2 d (by rw [e]; exact herr)

/-- The per-item carousel loop succeeds iff every item's container creation
succeeded and its wait finished. -/
theorem runItems_ok_iff :
    ∀ items : List CarouselItem,
      (∃ cids, runItems items = .ok cids) ↔
        ∀ it ∈ items, (∃ cid, it.create = .ok cid) ∧ waitForContainer it.poll = .success := by
  intro items
  induction items with
  | nil => simp [runItems]
  | cons it rest ih =>
    simp only [runItems]
    cases hc : it.create with
    | error e => simp [hc, List.forall_mem_cons]
    | ok cid =>
      cases hw : waitForContainer it.poll with
      | success =>
        cases hr : runItems rest with
        | error e2 => simp [hc, hw, hr, List.forall_mem_cons, ← ih]
        | ok cids => simp [hc, hw, hr, List.forall_mem_cons, ← ih]
      | containerError d => simp [hc, hw, List.forall_mem_cons]
      | requestError e2 => simp [hc, hw, List.forall_mem_cons]
      | timedOut => simp [hc, hw, List.forall_mem_cons]
/-- C6: containers are polled on the fixed 2-second interval against the
300-second timeout — a status sequence that never resolves times the wait
out, and the first decisive status among the at-most-149 polls decides the
wait (`FINISHED` succeeds, `ERROR` aborts with the container's detail) — and
the carousel-level publish call is issued iff the item count is in bounds
and every single item's container reached `FINISHED`; any item failure
aborts the whole carousel unpublished. -/
theorem carousel_polls_and_publishes_only_when_finished :
    pollIntervalSeconds = 2 ∧ containerTimeoutSeconds = 300 ∧
    (∀ poll : Nat → Except String ContainerStatus,
      (∀ j, j < maxPolls → poll j = .ok .inProgress) → waitForContainer poll = .timedOut) ∧
    (∀ (poll : Nat → Except String ContainerStatus) (k : Nat), k < maxPolls →
      (∀ j, j < k → poll j = .ok .inProgress) → poll k = .ok .finished →
        waitForContainer poll = .success) ∧
    (∀ (poll : Nat → Except String ContainerStatus) (k : Nat) (d : String), k < maxPolls →
      (∀ j, j < k → poll j = .ok .inProgress) → poll k = .ok (.errored d) →
        waitForContainer poll = .containerError d) ∧
    (∀ items : List CarouselItem,
      (runCarousel items).published = true ↔
        (2 ≤ items.length ∧ items.length ≤ 20 ∧
          ∀ it ∈ items, (∃ cid, it.create = .ok cid) ∧ waitForContainer it.poll = .success)) := by
  refine ⟨rfl, rfl, ?_, ?_, ?_, ?_⟩
  · intro poll h
    exact waitLoop_timeout poll maxPolls 0 (fun j hj => by rw [Nat.zero_add]; exact h j hj)
  · intro poll k hk hbefore hfin
    exact (waitLoop_first poll k maxPolls 0 hk
      (fun j hj => by rw [Nat.zero_add]; exact hbefore j hj)).1
      (by rw [Nat.zero_add]; exact hfin)
  · intro poll k d hk hbefore herr
    exact (waitLoop_first poll k maxPolls 0 hk
      (fun j hj => by rw [Nat.zero_add]; exact hbefore j hj)).2 d
      (by rw [Nat.zero_add]; exact herr)
  · intro items
    rcases Nat.lt_or_ge items.length 2 with h2 | h2
    · simp only [runCarousel, if_pos h2]
      constructor
      · intro hx; simp at hx
      · rintro ⟨hlen, -, -⟩; omega
    · by_cases h20 : items.length > 20
      · simp only [runCarousel, if_neg (by omega : ¬items.length < 2), if_pos h20]
        constructor
        · intro hx; simp at hx
        · rintro ⟨-, hlen, -⟩; omega
      · simp only [runCarousel, if_neg (by omega : ¬items.length < 2), if_neg h20]
        cases hr : runItems items with
        | error e =>
          constructor
          · intro hx; simp at hx
          · intro hall
            obtain ⟨cids, hc⟩ := (runItems_ok_iff items).mpr (fun it hit => hall.2.2 it hit)
            rw [hr] at hc
            cases hc
        | ok cids =>
          constructor
          · intro _
            exact ⟨by omega, by omega, (runItems_ok_iff items).mp ⟨cids, hr⟩⟩
          · intro _; rfl

/-- Witness for C6: an always-in-progress container times out, an
immediately-finished one succeeds, an erroring one aborts with its detail,
and a two-item carousel whose containers both finish is published. -/
theorem carousel_polls_witness :
    waitForContainer (fun _ => .ok .inProgress) = .timedOut ∧
    waitForContainer (fun _ => .ok .finished) = .success ∧
    waitForContainer
      (fun i => if i = 0 then .ok (.errored "media processing failed") else .ok .inProgress) =
        .containerError "media processing failed" ∧
    (runCarousel [⟨.ok ⟨"c1"⟩, fun _ => .ok .finished⟩,
      ⟨.ok ⟨"c2"⟩, fun _ => .ok .finished⟩]).published = true :=
  ⟨carousel_polls_and_publishes_only_when_finished.2.2.1 _ (fun j _ => rfl),
    carousel_polls_and_publishes_only_when_finished.2.2.2.1 _ 0 (by decide)
      (fun j hj => absurd hj (Nat.not_lt_zero j)) rfl,
    carousel_polls_and_publishes_only_when_finished.2.2.2.2.1 _ 0 "media processing failed"
      (by decide) (fun j hj => absurd hj (Nat.not_lt_zero j)) rfl,
    (carousel_polls_and_publishes_only_when_finished.2.2.2.2.2 _).mpr
      ⟨by decide, by decide, by
        intro it hit
        simp only [List.mem_cons, List.not_mem_nil, or_false] at hit
        rcases hit with rfl | rfl
        · exact ⟨⟨⟨"c1"⟩, rfl⟩, by decide⟩
        · exact ⟨⟨⟨"c2"⟩, rfl⟩, by decide⟩⟩⟩
/-- The sixteen hex digit characters are pairwise distinct. -/
theorem hexDigitChar_inj_fin :
    ∀ a b : Fin 16, hexDigitChar a.val = hexDigitChar b.val → a = b := by decide

/-- Hex encoding is injective on byte sequences (bytes read mod 256). -/
theorem hexChars_inj :
    ∀ l1 l2 : List Nat, hexChars l1 = hexChars l2 →
      l1.map (fun b => b % 256) = l2.map (fun b => b % 256) := by
  intro l1
  induction l1 with
  | nil =>
    intro l2 h
    cases l2 with
    | nil => rfl
    | cons b t => simp [hexChars] at h
  | cons b t ih =>
    intro l2 h
    cases l2 with
    | nil => simp [hexChars] at h
    | cons b2 t2 =>
      simp only [hexChars, List.cons.injEq] at h
      obtain ⟨h1, h2, h3⟩ := h
      have e1 : b % 256 / 16 = b2 % 256 / 16 := by
        have := hexDigitChar_inj_fin ⟨b % 256 / 16, by omega⟩ ⟨b2 % 256 / 16, by omega⟩ h1
        exact congrArg Fin.val this
      have e2 : b % 16 = b2 % 16 := by
        have := hexDigitChar_inj_fin ⟨b % 16, by omega⟩ ⟨b2 % 16, by omega⟩ h2
        exact congrArg Fin.val this
      simp only [List.map_cons, List.cons.injEq]
      exact ⟨by omega, ih t2 h3⟩
/-- C9: `GetAuthURL(nil)` builds an authorization URL containing the
configured `client_id`, `response_type=code`, and the freshly generated
random `state` parameter; and two consecutive calls on the same client whose
16-byte entropy draws differ — the guarantee a cryptographically random
generator provides — produce different state values and hence different
URLs. -/
theorem getAuthURL_components_and_fresh_state :
    ∀ (cfg : Config) (e1 e2 : List Nat),
      (∃ p q : List Char, (Client.GetAuthURL cfg none e1).data =
        p ++ ("client_id=" ++ cfg.ClientID).data ++ q) ∧
      (∃ p q : List Char, (Client.GetAuthURL cfg none e1).data =
        p ++ "response_type=code".data ++ q) ∧
      (∃ p q : List Char, (Client.GetAuthURL cfg none e1).data =
        p ++ ("state=" ++ generateState e1).data ++ q) ∧
      ((e1.take 16).map (fun b => b % 256) ≠ (e2.take 16).map (fun b => b % 256) →
        Client.GetAuthURL cfg none e1 ≠ Client.GetAuthURL cfg none e2) := by
  intro cfg e1 e2
  have hq : ("?client_id=" : String) = "?" ++ "client_id=" := by decide
  have hr : ("&response_type=code&scope=" : String) = "&" ++ "response_type=code" ++ "&scope=" := by
    decide
  have hs : ("&state=" : String) = "&" ++ "state=" := by decide
  refine ⟨?_, ?_, ?_, ?_⟩
  · refine ⟨(authorizeEndpoint ++ "?").data,
      ("&redirect_uri=" ++ cfg.RedirectURI ++ "&response_type=code&scope=" ++
        String.intercalate "," cfg.Scopes ++ "&state=" ++ generateState e1).data, ?_⟩
    simp [Client.GetAuthURL, hq, String.data_append, List.append_assoc]
  · refine ⟨(authorizeEndpoint ++ "?client_id=" ++ cfg.ClientID ++ "&redirect_uri=" ++
        cfg.RedirectURI ++ "&").data,
      ("&scope=" ++ String.intercalate "," cfg.Scopes ++ "&state=" ++ generateState e1).data, ?_⟩
    simp [Client.GetAuthURL, hr, String.data_append, List.append_assoc]
  · refine ⟨(authorizeEndpoint ++ "?client_id=" ++ cfg.ClientID ++ "&redirect_uri=" ++
        cfg.RedirectURI ++ "&response_type=code&scope=" ++
        String.intercalate "," cfg.Scopes ++ "&").data, [], ?_⟩
    simp [Client.GetAuthURL, hs, String.data_append, List.append_assoc]
  · intro hne hurl
    apply hne
    have hdata := congrArg String.data hurl
    simp only [Client.GetAuthURL, String.data_append, List.append_assoc,
      List.append_cancel_left_eq] at hdata
    exact hexChars_inj _ _ hdata

/-- Witness for C9: on a concrete client configuration, two entropy draws
differing in their first byte yield different authorization URLs. -/
theorem getAuthURL_fresh_state_witness :
    Client.GetAuthURL
        ⟨"test-client-id", "test-client-secret", "https://example.com/callback",
          ["threads_basic"]⟩ none [0, 1, 2, 3, 4, 5, 6, 7, 8, 9, 10, 11, 12, 13, 14, 15] ≠
      Client.GetAuthURL
        ⟨"test-client-id", "test-client-secret", "https://example.com/callback",
          ["threads_basic"]⟩ none [16, 1, 2, 3, 4, 5, 6, 7, 8, 9, 10, 11, 12, 13, 14, 15] :=
  (getAuthURL_components_and_fresh_state _ _ _).2.2.2 (by decide)

end Threads
